import Mathlib

/-!
Shallow embedding of `src/geom/rect.rs` (the `Rect` module of nannou's geom
crate), instantiated at the scalar type `ℚ` (an ordered field, matching the
"ordered field-like number" contract the generic code assumes).

The companion 1D `Range` type lives outside the provided sources (it is the
external collaborator the spec describes in §4.0), so its operations are
modelled from the spec's stated contract; every such definition carries a
`Modelled from the spec:` doc comment.  Everything on `Rect`,
`SubdivisionRanges`, `Corners` and `Subdivisions` is translated directly from
`src/geom/rect.rs`.
-/

namespace Nannou

/-- Defines a Rectangle's bounds across one axis: `{ start, end }`.
The Rust field `end` is a Lean keyword, so it is written `«end»` here. -/
structure Range where
  start : ℚ
  «end» : ℚ
deriving DecidableEq

/-- A 2D point with `x`/`y` coordinates (the `Point2` collaborator). -/
structure Point2 where
  x : ℚ
  y : ℚ
deriving DecidableEq

/-- A 2D vector with `x`/`y` components (the `Vector2` collaborator). -/
structure Vector2 where
  x : ℚ
  y : ℚ
deriving DecidableEq

/-- Modelled from the spec: the tri-state alignment specifier `Align`
(Start/Middle/End semantics, §4.5); the `Align` type itself is repository
code not included under `src/`. -/
inductive Align where
  | start
  | middle
  | «end»
deriving DecidableEq

/-- `Range::new(start, end)`. -/
def Range.new (s e : ℚ) : Range :=
  { start := s, «end» := e }

/-- Modelled from the spec: `Range::from_pos_and_len` produces a range of the
given length centered at the given position (§4.1 together with the concrete
scenario `from_x_y_w_h(0,0,10,10) → left()=-5, right()=5`); the `Range` type
is repository code not included under `src/`. -/
def Range.from_pos_and_len (pos len : ℚ) : Range :=
  Range.new (pos - len / 2) (pos + len / 2)

/-- Modelled from the spec: `Range::middle()` is the midpoint of the range. -/
def Range.middle (r : Range) : ℚ :=
  (r.start + r.«end») / 2

/-- Modelled from the spec: `Range::len() = |end - start|` (§3). -/
def Range.len (r : Range) : ℚ :=
  |r.«end» - r.start|

/-- Modelled from the spec: `Range::absolute()` returns a range with
`start <= end` (§3), leaving an already ordered range unchanged. -/
def Range.absolute (r : Range) : Range :=
  if r.«end» < r.start then Range.new r.«end» r.start else r

/-- Modelled from the spec: `Range::shift(d)` translates both endpoints. -/
def Range.shift (r : Range) (d : ℚ) : Range :=
  Range.new (r.start + d) (r.«end» + d)

/-- Modelled from the spec: `Range::contains(v)` checks `v` lies between the
absolute start/end (§3). -/
def Range.contains (r : Range) (v : ℚ) : Prop :=
  r.absolute.start ≤ v ∧ v ≤ r.absolute.«end»

instance (r : Range) (v : ℚ) : Decidable (r.contains v) :=
  inferInstanceAs (Decidable (_ ∧ _))

/-- Modelled from the spec: `Range::overlap(other)` returns the intersecting
absolute range or none if disjoint, accepting touching endpoints (§3, §4.3). -/
def Range.overlap (a b : Range) : Option Range :=
  let a := a.absolute
  let b := b.absolute
  let s := max a.start b.start
  let e := min a.«end» b.«end»
  if s ≤ e then some (Range.new s e) else none

/-- Modelled from the spec: `Range::pad_start(p)` shrinks the start edge
inward by `p` (§4.6), moving it towards the other endpoint whatever the
stored orientation. -/
def Range.pad_start (r : Range) (p : ℚ) : Range :=
  if r.start ≤ r.«end» then Range.new (r.start + p) r.«end»
  else Range.new (r.start - p) r.«end»

/-- Modelled from the spec: `Range::pad_end(p)` shrinks the end edge inward
by `p` (§4.6). -/
def Range.pad_end (r : Range) (p : ℚ) : Range :=
  if r.start ≤ r.«end» then Range.new r.start (r.«end» - p)
  else Range.new r.start (r.«end» + p)

/-- Modelled from the spec: `Range::pad(p)` pads both edges (§4.6). -/
def Range.pad (r : Range) (p : ℚ) : Range :=
  (r.pad_start p).pad_end p

/-- Modelled from the spec: `Range::align_start_of(other)` shifts `self` so
its absolute start coincides with `other`'s absolute start (§4.5). -/
def Range.align_start_of (a b : Range) : Range :=
  a.shift (b.absolute.start - a.absolute.start)

/-- Modelled from the spec: `Range::align_end_of(other)` shifts `self` so its
absolute end coincides with `other`'s absolute end (§4.5). -/
def Range.align_end_of (a b : Range) : Range :=
  a.shift (b.absolute.«end» - a.absolute.«end»)

/-- Modelled from the spec: `Range::align_middle_of(other)` shifts `self` so
the midpoints coincide (§4.5). -/
def Range.align_middle_of (a b : Range) : Range :=
  a.shift (b.middle - a.middle)

/-- Modelled from the spec: `Range::align_before(other)` places `self`'s
(absolute) end at `other`'s (absolute) start (§4.5: "placing self's right
edge at other's left edge"). -/
def Range.align_before (a b : Range) : Range :=
  a.shift (b.absolute.start - a.absolute.«end»)

/-- Modelled from the spec: `Range::align_after(other)` places `self`'s
(absolute) start at `other`'s (absolute) end (§4.5). -/
def Range.align_after (a b : Range) : Range :=
  a.shift (b.absolute.«end» - a.absolute.start)

/-- Modelled from the spec: `Range::align_to(align, other)` dispatches on the
Start/Middle/End alignment specifier (§4.5). -/
def Range.align_to (a : Range) (al : Align) (b : Range) : Range :=
  match al with
  | Align.start => a.align_start_of b
  | Align.middle => a.align_middle_of b
  | Align.«end» => a.align_end_of b

/-- `Rect<S>`: a pair of ranges, one per axis (`src/geom/rect.rs`). -/
structure Rect where
  x : Range
  y : Range
deriving DecidableEq

/-- `NUM_SUBDIVISIONS: u8 = 4`. -/
def NUM_SUBDIVISIONS : ℕ := 4

/-- `NUM_CORNERS: u8 = 4`. -/
def NUM_CORNERS : ℕ := 4

/-- `Rect::from_xy_wh(p, wh)`. -/
def Rect.from_xy_wh (p : Point2) (wh : Vector2) : Rect :=
  { x := Range.from_pos_and_len p.x wh.x
    y := Range.from_pos_and_len p.y wh.y }

/-- `Rect::from_x_y_w_h(x, y, w, h)`. -/
def Rect.from_x_y_w_h (x y w h : ℚ) : Rect :=
  Rect.from_xy_wh { x := x, y := y } { x := w, y := h }

/-- `Rect::from_corners(a, b)`. -/
def Rect.from_corners (a b : Point2) : Rect :=
  let lr := if a.x < b.x then (a.x, b.x) else (b.x, a.x)
  let bt := if a.y < b.y then (a.y, b.y) else (b.y, a.y)
  { x := { start := lr.1, «end» := lr.2 }
    y := { start := bt.1, «end» := bt.2 } }

/-- `Rect::absolute()`. -/
def Rect.absolute (r : Rect) : Rect :=
  { x := r.x.absolute, y := r.y.absolute }

/-- `Rect::overlap(other)`: `self.x.overlap(other.x).and_then(|x|
self.y.overlap(other.y).map(|y| Rect { x, y }))`. -/
def Rect.overlap (a b : Rect) : Option Rect :=
  (a.x.overlap b.x).bind fun x =>
    (a.y.overlap b.y).map fun y => { x := x, y := y }

/-- `Rect::x()`: the position in the middle of the x bounds (named `xCoord`
here because `x` is the field name). -/
def Rect.xCoord (r : Rect) : ℚ :=
  r.x.middle

/-- `Rect::y()`: the position in the middle of the y bounds. -/
def Rect.yCoord (r : Rect) : ℚ :=
  r.y.middle

/-- `Rect::x_y()`. -/
def Rect.x_y (r : Rect) : ℚ × ℚ :=
  (r.xCoord, r.yCoord)

/-- `Rect::bottom()`: the Rect's lowest y value. -/
def Rect.bottom (r : Rect) : ℚ :=
  r.y.absolute.start

/-- `Rect::top()`: the Rect's highest y value. -/
def Rect.top (r : Rect) : ℚ :=
  r.y.absolute.«end»

/-- `Rect::left()`: the Rect's lowest x value. -/
def Rect.left (r : Rect) : ℚ :=
  r.x.absolute.start

/-- `Rect::right()`: the Rect's highest x value. -/
def Rect.right (r : Rect) : ℚ :=
  r.x.absolute.«end»

/-- `Rect::top_left()`. -/
def Rect.top_left (r : Rect) : Point2 :=
  { x := r.left, y := r.top }

/-- `Rect::bottom_left()`. -/
def Rect.bottom_left (r : Rect) : Point2 :=
  { x := r.left, y := r.bottom }

/-- `Rect::top_right()`. -/
def Rect.top_right (r : Rect) : Point2 :=
  { x := r.right, y := r.top }

/-- `Rect::bottom_right()`. -/
def Rect.bottom_right (r : Rect) : Point2 :=
  { x := r.right, y := r.bottom }

/-- `Rect::left_of(other)`: `x: self.x.align_before(other.x), y: self.y`. -/
def Rect.left_of (r o : Rect) : Rect :=
  { x := r.x.align_before o.x, y := r.y }

/-- `Rect::right_of(other)`: `x: self.x.align_after(other.x), y: self.y`. -/
def Rect.right_of (r o : Rect) : Rect :=
  { x := r.x.align_after o.x, y := r.y }

/-- `Rect::below(other)`: `x: self.x, y: self.y.align_before(other.x)`
(sic: the source passes `other.x`, not `other.y`). -/
def Rect.below (r o : Rect) : Rect :=
  { x := r.x, y := r.y.align_before o.x }

/-- `Rect::above(other)`: `x: self.x, y: self.y.align_after(other.x)`
(sic: the source passes `other.x`, not `other.y`). -/
def Rect.above (r o : Rect) : Rect :=
  { x := r.x, y := r.y.align_after o.x }

/-- `Rect::align_x_of(align, other)`. -/
def Rect.align_x_of (r : Rect) (al : Align) (o : Rect) : Rect :=
  { x := r.x.align_to al o.x, y := r.y }

/-- `Rect::align_y_of(align, other)`. -/
def Rect.align_y_of (r : Rect) (al : Align) (o : Rect) : Rect :=
  { x := r.x, y := r.y.align_to al o.y }

/-- `Rect::align_left_of(other)`. -/
def Rect.align_left_of (r o : Rect) : Rect :=
  { x := r.x.align_start_of o.x, y := r.y }

/-- `Rect::align_middle_x_of(other)`. -/
def Rect.align_middle_x_of (r o : Rect) : Rect :=
  { x := r.x.align_middle_of o.x, y := r.y }

/-- `Rect::align_right_of(other)`. -/
def Rect.align_right_of (r o : Rect) : Rect :=
  { x := r.x.align_end_of o.x, y := r.y }

/-- `Rect::align_bottom_of(other)`. -/
def Rect.align_bottom_of (r o : Rect) : Rect :=
  { x := r.x, y := r.y.align_start_of o.y }

/-- `Rect::align_middle_y_of(other)`. -/
def Rect.align_middle_y_of (r o : Rect) : Rect :=
  { x := r.x, y := r.y.align_middle_of o.y }

/-- `Rect::align_top_of(other)`. -/
def Rect.align_top_of (r o : Rect) : Rect :=
  { x := r.x, y := r.y.align_end_of o.y }

/-- `Rect::w()`: the width of the Rect. -/
def Rect.w (r : Rect) : ℚ :=
  r.x.len

/-- `Rect::h()`: the height of the Rect. -/
def Rect.h (r : Rect) : ℚ :=
  r.y.len

/-- `Rect::pad(pad)`: pad both axes uniformly. -/
def Rect.pad (r : Rect) (p : ℚ) : Rect :=
  { x := r.x.pad p, y := r.y.pad p }

/-- `Rect::corner_at_index(index)`: fixed mapping `0 => bottom_left,
1 => bottom_right, 2 => top_left, 3 => top_right, _ => None`
(`corner_from_index!`). -/
def Rect.corner_at_index (r : Rect) (index : ℕ) : Option Point2 :=
  match index with
  | 0 => some r.bottom_left
  | 1 => some r.bottom_right
  | 2 => some r.top_left
  | 3 => some r.top_right
  | _ => none

/-- `SubdivisionRanges<S>`: the two halves of each axis. -/
structure SubdivisionRanges where
  x_a : Range
  x_b : Range
  y_a : Range
  y_b : Range
deriving DecidableEq

/-- `Rect::subdivision_ranges()`: split each axis at its midpoint. -/
def Rect.subdivision_ranges (r : Rect) : SubdivisionRanges :=
  let xy := r.x_y
  { x_a := Range.new r.x.start xy.1
    x_b := Range.new xy.1 r.x.«end»
    y_a := Range.new r.y.start xy.2
    y_b := Range.new xy.2 r.y.«end» }

/-- `SubdivisionRanges::rects()`: the four quadrants, in the fixed order of
`subdivision_from_index!` (0 bottom-left, 1 bottom-right, 2 top-left,
3 top-right). -/
def SubdivisionRanges.rects (sr : SubdivisionRanges) : List Rect :=
  [ { x := sr.x_a, y := sr.y_a }
  , { x := sr.x_b, y := sr.y_a }
  , { x := sr.x_a, y := sr.y_b }
  , { x := sr.x_b, y := sr.y_b } ]

/-- `SubdivisionRanges::subdivision_at_index(index)`. -/
def SubdivisionRanges.subdivision_at_index (sr : SubdivisionRanges) (index : ℕ) :
    Option Rect :=
  match index with
  | 0 => some { x := sr.x_a, y := sr.y_a }
  | 1 => some { x := sr.x_b, y := sr.y_a }
  | 2 => some { x := sr.x_a, y := sr.y_b }
  | 3 => some { x := sr.x_b, y := sr.y_b }
  | _ => none

/-- `Rect::subdivisions()`. -/
def Rect.subdivisions (r : Rect) : List Rect :=
  r.subdivision_ranges.rects

/-- The area measure `w * h` used to state the tiling property of claim C3;
not a source function. -/
def Rect.area (r : Rect) : ℚ :=
  r.w * r.h

/-- The area of the overlap of two rects (`0` when they do not overlap);
the measure used to state "pairwise overlaps are zero-area". -/
def Rect.overlapArea (a b : Rect) : ℚ :=
  ((a.overlap b).map Rect.area).getD 0

/-- `u8` wrapping addition on the value range `[0, 256)`. -/
def wadd8 (a b : ℕ) : ℕ :=
  (a % 256 + b % 256) % 256

/-- `u8` wrapping subtraction on the value range `[0, 256)` — the release-mode
semantics of `a - b` on `u8`. -/
def wsub8 (a b : ℕ) : ℕ :=
  (a % 256 + 256 - b % 256) % 256

/-- `u8` checked addition: `none` models the debug-mode overflow panic. -/
def cadd8 (a b : ℕ) : Option ℕ :=
  if a + b ≤ 255 then some (a + b) else none

/-- `u8` checked subtraction: `none` models the debug-mode
"attempt to subtract with overflow" panic of `a - b` on `u8`. -/
def csub8 (a b : ℕ) : Option ℕ :=
  if b ≤ a then some (a - b) else none

/-- `Corners<S>`: iterator state `{ rect, index: u8 }`. -/
structure Corners where
  rect : Rect
  index : ℕ
deriving DecidableEq

/-- `Rect::corners_iter()`. -/
def Rect.corners_iter (r : Rect) : Corners :=
  { rect := r, index := 0 }

/-- `Iterator for Corners::next`, returning the yielded element (if any)
together with the updated iterator state. -/
def Corners.next (c : Corners) : Option Point2 × Corners :=
  match c.rect.corner_at_index c.index with
  | some corner => (some corner, { c with index := wadd8 c.index 1 })
  | none => (none, c)

/-- `DoubleEndedIterator for Corners::next_back`, with `u8` release-mode
(wrapping) arithmetic for `NUM_CORNERS - next_index`. -/
def Corners.next_back (c : Corners) : Option Point2 × Corners :=
  let next_index := wadd8 c.index 1
  match c.rect.corner_at_index (wsub8 NUM_CORNERS next_index) with
  | some corner => (some corner, { c with index := next_index })
  | none => (none, c)

/-- `DoubleEndedIterator for Corners::next_back` under debug-mode (checked)
`u8` arithmetic: the outer `none` models an arithmetic-overflow panic. -/
def Corners.next_back_checked (c : Corners) : Option (Option Point2 × Corners) :=
  (cadd8 c.index 1).bind fun next_index =>
    (csub8 NUM_CORNERS next_index).map fun i =>
      match c.rect.corner_at_index i with
      | some corner => (some corner, { c with index := next_index })
      | none => (none, c)

/-- `Subdivisions<S>`: iterator state `{ ranges, subdivision_index: u8 }`. -/
structure Subdivisions where
  ranges : SubdivisionRanges
  subdivision_index : ℕ
deriving DecidableEq

/-- `SubdivisionRanges::rects_iter()`. -/
def SubdivisionRanges.rects_iter (sr : SubdivisionRanges) : Subdivisions :=
  { ranges := sr, subdivision_index := 0 }

/-- `Rect::subdivisions_iter()`. -/
def Rect.subdivisions_iter (r : Rect) : Subdivisions :=
  r.subdivision_ranges.rects_iter

/-- `Iterator for Subdivisions::next`. -/
def Subdivisions.next (s : Subdivisions) : Option Rect × Subdivisions :=
  match s.ranges.subdivision_at_index s.subdivision_index with
  | some sd => (some sd, { s with subdivision_index := wadd8 s.subdivision_index 1 })
  | none => (none, s)

/-- `DoubleEndedIterator for Subdivisions::next_back`, with `u8` release-mode
(wrapping) arithmetic for `NUM_SUBDIVISIONS - next_index`. -/
def Subdivisions.next_back (s : Subdivisions) : Option Rect × Subdivisions :=
  let next_index := wadd8 s.subdivision_index 1
  match s.ranges.subdivision_at_index (wsub8 NUM_SUBDIVISIONS next_index) with
  | some sd => (some sd, { s with subdivision_index := next_index })
  | none => (none, s)

/-- `DoubleEndedIterator for Subdivisions::next_back` under debug-mode
(checked) `u8` arithmetic: the outer `none` models an overflow panic. -/
def Subdivisions.next_back_checked (s : Subdivisions) :
    Option (Option Rect × Subdivisions) :=
  (cadd8 s.subdivision_index 1).bind fun next_index =>
    (csub8 NUM_SUBDIVISIONS next_index).map fun i =>
      match s.ranges.subdivision_at_index i with
      | some sd => (some sd, { s with subdivision_index := next_index })
      | none => (none, s)

/-- Run a sequence of consumption calls on a `Corners` iterator (`true` =
`next`, `false` = `next_back`), collecting the yielded values and the final
state. -/
def Corners.run (c : Corners) : List Bool → List (Option Point2) × Corners
  | [] => ([], c)
  | call :: rest =>
    let step := if call then c.next else c.next_back
    let tail := step.2.run rest
    (step.1 :: tail.1, tail.2)

/-- Run a sequence of consumption calls on a `Subdivisions` iterator (`true`
= `next`, `false` = `next_back`). -/
def Subdivisions.run (s : Subdivisions) : List Bool → List (Option Rect) × Subdivisions
  | [] => ([], s)
  | call :: rest =>
    let step := if call then s.next else s.next_back
    let tail := step.2.run rest
    (step.1 :: tail.1, tail.2)

/-! ## Helper lemmas -/

theorem Range.absolute_start_le_end (r : Range) :
    r.absolute.start ≤ r.absolute.«end» := by
  unfold Range.absolute
  split
  · exact le_of_lt (by assumption)
  · exact le_of_not_lt (by assumption)

theorem Range.overlap_isSome_iff (a b : Range) :
    (a.overlap b).isSome ↔ ∃ v, a.contains v ∧ b.contains v := by
  simp only [Range.overlap, Range.contains]
  constructor
  · intro h
    by_cases hc :
        max a.absolute.start b.absolute.start ≤ min a.absolute.«end» b.absolute.«end»
    · exact ⟨max a.absolute.start b.absolute.start,
        ⟨le_max_left _ _, le_trans hc (min_le_left _ _)⟩,
        ⟨le_max_right _ _, le_trans hc (min_le_right _ _)⟩⟩
    · simp [hc] at h
  · rintro ⟨v, ⟨h1, h2⟩, ⟨h3, h4⟩⟩
    have hc : max a.absolute.start b.absolute.start ≤
        min a.absolute.«end» b.absolute.«end» :=
      le_trans (max_le h1 h3) (le_min h2 h4)
    simp [hc]

theorem Range.pad_pad_neg (a : Range) (p : ℚ) (hp : 0 < p) (hl : p < a.len / 2) :
    (a.pad p).pad (-p) = a := by
  obtain ⟨s, e⟩ := a
  simp only [Range.len] at hl
  simp only [Range.pad, Range.pad_start, Range.pad_end, Range.new]
  rcases le_or_lt s e with h | h
  · rw [abs_of_nonneg (by linarith : (0:ℚ) ≤ e - s)] at hl
    split_ifs <;> simp_all [Range.mk.injEq] <;> linarith
  · rw [abs_of_neg (by linarith : e - s < 0)] at hl
    split_ifs <;> simp_all [Range.mk.injEq] <;> linarith

theorem Range.len_first_half (s e : ℚ) :
    (Range.new s ((s + e) / 2)).len = (Range.mk s e).len / 2 := by
  simp only [Range.len, Range.new]
  rw [show (s + e) / 2 - s = (e - s) / 2 by ring, abs_div]
  norm_num

theorem Range.len_second_half (s e : ℚ) :
    (Range.new ((s + e) / 2) e).len = (Range.mk s e).len / 2 := by
  simp only [Range.len, Range.new]
  rw [show e - (s + e) / 2 = (e - s) / 2 by ring, abs_div]
  norm_num

theorem Range.overlap_halves (s e : ℚ) :
    (Range.new s ((s + e) / 2)).overlap (Range.new ((s + e) / 2) e) =
      some (Range.new ((s + e) / 2) ((s + e) / 2)) := by
  simp only [Range.overlap, Range.absolute, Range.new]
  rcases lt_trichotomy s e with h | h | h
  · rw [if_neg (show ¬((s + e) / 2 < s) by intro hc; linarith),
      if_neg (show ¬(e < (s + e) / 2) by intro hc; linarith)]
    dsimp only
    rw [max_eq_right (by linarith), min_eq_left (by linarith), if_pos le_rfl]
  · subst h
    rw [show (s + s) / 2 = s by ring]
    simp
  · rw [if_pos (show (s + e) / 2 < s by linarith),
      if_pos (show e < (s + e) / 2 by linarith)]
    dsimp only
    rw [max_eq_left (by linarith), min_eq_right (by linarith), if_pos le_rfl]

theorem Range.overlap_halves_swapped (s e : ℚ) :
    (Range.new ((s + e) / 2) e).overlap (Range.new s ((s + e) / 2)) =
      some (Range.new ((s + e) / 2) ((s + e) / 2)) := by
  simp only [Range.overlap, Range.absolute, Range.new]
  rcases lt_trichotomy s e with h | h | h
  · rw [if_neg (show ¬(e < (s + e) / 2) by intro hc; linarith),
      if_neg (show ¬((s + e) / 2 < s) by intro hc; linarith)]
    dsimp only
    rw [max_eq_left (by linarith), min_eq_right (by linarith), if_pos le_rfl]
  · subst h
    rw [show (s + s) / 2 = s by ring]
    simp
  · rw [if_pos (show e < (s + e) / 2 by linarith),
      if_pos (show (s + e) / 2 < s by linarith)]
    dsimp only
    rw [max_eq_right (by linarith), min_eq_left (by linarith), if_pos le_rfl]

theorem Range.overlap_self (a : Range) : a.overlap a = some a.absolute := by
  simp only [Range.overlap]
  rw [max_self, min_self, if_pos a.absolute_start_le_end]
  rfl

theorem Range.len_point (v : ℚ) : (Range.new v v).len = 0 := by
  simp [Range.len, Range.new]

/-! ## Claim theorems -/

/-- Claim C1: `below(other)` keeps `self.x` and aligns `self.y` before
`other.x` (and `above(other)` aligns `self.y` after `other.x`): the y axis is
positioned relative to `other`'s x range, not its y range — witnessed by a
concrete pair where the two choices differ. -/
theorem C1_below_above_use_other_x :
    (∀ r o : Rect,
      r.below o = { x := r.x, y := r.y.align_before o.x } ∧
      r.above o = { x := r.x, y := r.y.align_after o.x }) ∧
    (Rect.mk (Range.new 0 1) (Range.new 0 1)).below
        (Rect.mk (Range.new 0 1) (Range.new 10 20)) ≠
      { x := Range.new 0 1, y := (Range.new 0 1).align_before (Range.new 10 20) } ∧
    (Rect.mk (Range.new 0 1) (Range.new 0 1)).above
        (Rect.mk (Range.new 0 1) (Range.new 10 20)) ≠
      { x := Range.new 0 1, y := (Range.new 0 1).align_after (Range.new 10 20) } := by
  refine ⟨fun r o => ⟨rfl, rfl⟩, ?_, ?_⟩ <;>
  · intro h
    have hs := congrArg (fun q => q.y.start) h
    norm_num [Rect.below, Rect.above, Range.align_before, Range.align_after,
      Range.absolute, Range.shift, Range.new] at hs

/-- Claim C2: the derived queries satisfy `left() ≤ right()` and
`bottom() ≤ top()` for every rect, whatever the orientation of the stored
ranges; in particular for every `from_corners(a, b)`. -/
theorem C2_derived_queries_ordered :
    (∀ r : Rect, r.left ≤ r.right ∧ r.bottom ≤ r.top) ∧
    (∀ a b : Point2,
      (Rect.from_corners a b).left ≤ (Rect.from_corners a b).right ∧
      (Rect.from_corners a b).bottom ≤ (Rect.from_corners a b).top) := by
  constructor
  · exact fun r => ⟨r.x.absolute_start_le_end, r.y.absolute_start_le_end⟩
  · exact fun a b => ⟨(Rect.from_corners a b).x.absolute_start_le_end,
      (Rect.from_corners a b).y.absolute_start_le_end⟩

/-- Claim C6: `corner_at_index(i)` follows the fixed mapping 0 = bottom-left,
1 = bottom-right, 2 = top-left, 3 = top-right, and returns none for every
index outside `0..3`. -/
theorem C6_corner_at_index_mapping :
    (∀ r : Rect,
      r.corner_at_index 0 = some r.bottom_left ∧
      r.corner_at_index 1 = some r.bottom_right ∧
      r.corner_at_index 2 = some r.top_left ∧
      r.corner_at_index 3 = some r.top_right) ∧
    (∀ (r : Rect) (i : ℕ), 3 < i → r.corner_at_index i = none) := by
  refine ⟨fun r => ⟨rfl, rfl, rfl, rfl⟩, fun r i h => ?_⟩
  obtain ⟨n, rfl⟩ : ∃ n, i = n + 4 := ⟨i - 4, by omega⟩
  rfl

/-- Witness for C6's out-of-range hypothesis at the concrete index 7. -/
theorem C6_corner_at_index_mapping_witness :
    3 < 7 ∧ (Rect.from_x_y_w_h 0 0 2 2).corner_at_index 7 = none :=
  ⟨by decide, C6_corner_at_index_mapping.2 (Rect.from_x_y_w_h 0 0 2 2) 7 (by decide)⟩

/-- Claim C7: every single-axis alignment method returns a rect whose range
on the non-aligned axis is exactly `self`'s stored range on that axis. -/
theorem C7_alignment_leaves_other_axis_untouched :
    ∀ r o : Rect,
      (r.left_of o).y = r.y ∧
      (r.right_of o).y = r.y ∧
      (r.below o).x = r.x ∧
      (r.above o).x = r.x ∧
      (∀ al : Align, (r.align_x_of al o).y = r.y) ∧
      (∀ al : Align, (r.align_y_of al o).x = r.x) ∧
      (r.align_left_of o).y = r.y ∧
      (r.align_right_of o).y = r.y ∧
      (r.align_bottom_of o).x = r.x ∧
      (r.align_top_of o).x = r.x ∧
      (r.align_middle_x_of o).y = r.y ∧
      (r.align_middle_y_of o).x = r.x :=
  fun r o =>
    ⟨rfl, rfl, rfl, rfl, fun _ => rfl, fun _ => rfl,
     rfl, rfl, rfl, rfl, rfl, rfl⟩

set_option maxHeartbeats 1000000 in
/-- Claim C3: `subdivisions()` returns exactly four rects in the fixed order
0 = (x_a, y_a) bottom-left, 1 = (x_b, y_a) bottom-right, 2 = (x_a, y_b)
top-left, 3 = (x_b, y_b) top-right, where the halves split each axis at its
midpoint; each subdivision's width and height are half the rect's, the four
areas sum to the rect's area, and all pairwise overlaps have zero area. -/
theorem C3_subdivisions_tile (r : Rect) :
    r.subdivisions = [
      { x := r.subdivision_ranges.x_a, y := r.subdivision_ranges.y_a },
      { x := r.subdivision_ranges.x_b, y := r.subdivision_ranges.y_a },
      { x := r.subdivision_ranges.x_a, y := r.subdivision_ranges.y_b },
      { x := r.subdivision_ranges.x_b, y := r.subdivision_ranges.y_b } ] ∧
    r.subdivision_ranges = {
      x_a := Range.new r.x.start r.x.middle
      x_b := Range.new r.x.middle r.x.«end»
      y_a := Range.new r.y.start r.y.middle
      y_b := Range.new r.y.middle r.y.«end» } ∧
    (∀ s ∈ r.subdivisions, s.w = r.w / 2 ∧ s.h = r.h / 2) ∧
    (r.subdivisions.map Rect.area).sum = r.area ∧
    (∀ i j : ℕ, i < 4 → j < 4 → i ≠ j →
      Rect.overlapArea (r.subdivisions.getD i r) (r.subdivisions.getD j r) = 0) := by
  have hxa : (r.subdivision_ranges).x_a.len = r.x.len / 2 :=
    Range.len_first_half r.x.start r.x.«end»
  have hxb : (r.subdivision_ranges).x_b.len = r.x.len / 2 :=
    Range.len_second_half r.x.start r.x.«end»
  have hya : (r.subdivision_ranges).y_a.len = r.y.len / 2 :=
    Range.len_first_half r.y.start r.y.«end»
  have hyb : (r.subdivision_ranges).y_b.len = r.y.len / 2 :=
    Range.len_second_half r.y.start r.y.«end»
  have ox_ab : (r.subdivision_ranges).x_a.overlap (r.subdivision_ranges).x_b =
      some (Range.new r.x.middle r.x.middle) :=
    Range.overlap_halves r.x.start r.x.«end»
  have ox_ba : (r.subdivision_ranges).x_b.overlap (r.subdivision_ranges).x_a =
      some (Range.new r.x.middle r.x.middle) :=
    Range.overlap_halves_swapped r.x.start r.x.«end»
  have oy_ab : (r.subdivision_ranges).y_a.overlap (r.subdivision_ranges).y_b =
      some (Range.new r.y.middle r.y.middle) :=
    Range.overlap_halves r.y.start r.y.«end»
  have oy_ba : (r.subdivision_ranges).y_b.overlap (r.subdivision_ranges).y_a =
      some (Range.new r.y.middle r.y.middle) :=
    Range.overlap_halves_swapped r.y.start r.y.«end»
  have ox_aa : (r.subdivision_ranges).x_a.overlap (r.subdivision_ranges).x_a =
      some (r.subdivision_ranges).x_a.absolute := Range.overlap_self _
  have ox_bb : (r.subdivision_ranges).x_b.overlap (r.subdivision_ranges).x_b =
      some (r.subdivision_ranges).x_b.absolute := Range.overlap_self _
  have oy_aa : (r.subdivision_ranges).y_a.overlap (r.subdivision_ranges).y_a =
      some (r.subdivision_ranges).y_a.absolute := Range.overlap_self _
  have oy_bb : (r.subdivision_ranges).y_b.overlap (r.subdivision_ranges).y_b =
      some (r.subdivision_ranges).y_b.absolute := Range.overlap_self _
  refine ⟨rfl, rfl, ?_, ?_, ?_⟩
  · intro s hs
    simp only [Rect.subdivisions, SubdivisionRanges.rects, List.mem_cons,
      List.mem_singleton, List.not_mem_nil, or_false] at hs
    rcases hs with rfl | rfl | rfl | rfl
    · exact ⟨hxa, hya⟩
    · exact ⟨hxb, hya⟩
    · exact ⟨hxa, hyb⟩
    · exact ⟨hxb, hyb⟩
  · simp only [Rect.subdivisions, SubdivisionRanges.rects, List.map_cons,
      List.map_nil, List.sum_cons, List.sum_nil, Rect.area, Rect.w, Rect.h]
    rw [hxa, hxb, hya, hyb]
    show r.x.len / 2 * (r.y.len / 2) + (r.x.len / 2 * (r.y.len / 2) +
      (r.x.len / 2 * (r.y.len / 2) + (r.x.len / 2 * (r.y.len / 2) + 0))) =
      r.x.len * r.y.len
    ring
  · intro i j hi hj hne
    interval_cases i <;> interval_cases j <;>
      first
      | exact absurd rfl hne
      | simp [Rect.subdivisions, SubdivisionRanges.rects, List.getD,
          Rect.overlapArea, Rect.overlap,
          ox_ab, ox_ba, ox_aa, ox_bb, oy_ab, oy_ba, oy_aa, oy_bb,
          Rect.area, Rect.w, Rect.h, Range.len_point]

/-- Witness for C3's membership and index hypotheses at the rect
`from_x_y_w_h(0,0,2,2)`, its bottom-left subdivision, and the pair of
indices 0, 1. -/
theorem C3_subdivisions_tile_witness :
    ((Rect.from_x_y_w_h 0 0 2 2).subdivisions.getD 0 (Rect.from_x_y_w_h 0 0 2 2)
        ∈ (Rect.from_x_y_w_h 0 0 2 2).subdivisions) ∧
    ((Rect.from_x_y_w_h 0 0 2 2).subdivisions.getD 0
        (Rect.from_x_y_w_h 0 0 2 2)).w = (Rect.from_x_y_w_h 0 0 2 2).w / 2 ∧
    (0:ℕ) < 4 ∧ (1:ℕ) < 4 ∧ (0:ℕ) ≠ 1 ∧
    Rect.overlapArea
      ((Rect.from_x_y_w_h 0 0 2 2).subdivisions.getD 0 (Rect.from_x_y_w_h 0 0 2 2))
      ((Rect.from_x_y_w_h 0 0 2 2).subdivisions.getD 1 (Rect.from_x_y_w_h 0 0 2 2))
      = 0 := by
  have hmem : (Rect.from_x_y_w_h 0 0 2 2).subdivisions.getD 0
      (Rect.from_x_y_w_h 0 0 2 2) ∈ (Rect.from_x_y_w_h 0 0 2 2).subdivisions := by
    simp [Rect.subdivisions, SubdivisionRanges.rects, List.getD]
  exact ⟨hmem,
    ((C3_subdivisions_tile (Rect.from_x_y_w_h 0 0 2 2)).2.2.1 _ hmem).1,
    by omega, by omega, by omega,
    (C3_subdivisions_tile (Rect.from_x_y_w_h 0 0 2 2)).2.2.2.2 0 1
      (by omega) (by omega) (by omega)⟩

/-- Claim C4, evaluated at the failing input: four forward calls exhaust the
`Corners` iterator of `from_x_y_w_h(0,0,2,2)` (index = 4); the next
`next_back` call computes `NUM_CORNERS - next_index = 4 - 5` on `u8`, which
under checked (debug) arithmetic is an overflow panic (`none` of the outer
option), contradicting "no call errors or fails hard"; under wrapping
(release) arithmetic the wrapped index `255` falls outside `0..3`, so the
call returns no value and leaves the state unchanged.  The same holds for
the `Subdivisions` iterator. -/
theorem C4_next_back_after_exhaustion :
    ((Rect.from_x_y_w_h 0 0 2 2).corners_iter.run
        [true, true, true, true]).2.index = 4 ∧
    Corners.next_back_checked
      ((Rect.from_x_y_w_h 0 0 2 2).corners_iter.run
        [true, true, true, true]).2 = none ∧
    Corners.next_back
      ((Rect.from_x_y_w_h 0 0 2 2).corners_iter.run [true, true, true, true]).2 =
      (none, ((Rect.from_x_y_w_h 0 0 2 2).corners_iter.run
        [true, true, true, true]).2) ∧
    Corners.next
      ((Rect.from_x_y_w_h 0 0 2 2).corners_iter.run [true, true, true, true]).2 =
      (none, ((Rect.from_x_y_w_h 0 0 2 2).corners_iter.run
        [true, true, true, true]).2) ∧
    ((Rect.from_x_y_w_h 0 0 2 2).subdivisions_iter.run
        [true, true, true, true]).2.subdivision_index = 4 ∧
    Subdivisions.next_back_checked
      ((Rect.from_x_y_w_h 0 0 2 2).subdivisions_iter.run
        [true, true, true, true]).2 = none ∧
    Subdivisions.next_back
      ((Rect.from_x_y_w_h 0 0 2 2).subdivisions_iter.run
        [true, true, true, true]).2 =
      (none, ((Rect.from_x_y_w_h 0 0 2 2).subdivisions_iter.run
        [true, true, true, true]).2) ∧
    Subdivisions.next
      ((Rect.from_x_y_w_h 0 0 2 2).subdivisions_iter.run
        [true, true, true, true]).2 =
      (none, ((Rect.from_x_y_w_h 0 0 2 2).subdivisions_iter.run
        [true, true, true, true]).2) :=
  ⟨rfl, rfl, rfl, rfl, rfl, rfl, rfl, rfl⟩

/-- Claim C9: on the rect with x range `[-1,1]` and y range `[-1,1]`, the
call sequence next, next_back, next, next on the Corners iterator yields the
top-left corner twice and never yields the bottom-right corner (forward and
backward consumption advance the same index counter); analogously the
Subdivisions iterator yields the top-left subdivision twice and omits the
bottom-right one. -/
theorem C9_interleaving_duplicates_and_omits :
    ((Rect.mk (Range.new (-1) 1) (Range.new (-1) 1)).corners_iter.run
        [true, false, true, true]).1 =
      [some (Rect.mk (Range.new (-1) 1) (Range.new (-1) 1)).bottom_left,
       some (Rect.mk (Range.new (-1) 1) (Range.new (-1) 1)).top_left,
       some (Rect.mk (Range.new (-1) 1) (Range.new (-1) 1)).top_left,
       some (Rect.mk (Range.new (-1) 1) (Range.new (-1) 1)).top_right] ∧
    (Rect.mk (Range.new (-1) 1) (Range.new (-1) 1)).top_left ≠
      (Rect.mk (Range.new (-1) 1) (Range.new (-1) 1)).bottom_right ∧
    some (Rect.mk (Range.new (-1) 1) (Range.new (-1) 1)).bottom_right ∉
      ((Rect.mk (Range.new (-1) 1) (Range.new (-1) 1)).corners_iter.run
        [true, false, true, true]).1 ∧
    ((Rect.mk (Range.new (-1) 1) (Range.new (-1) 1)).subdivisions_iter.run
        [true, false, true, true]).1 =
      [some { x := (Rect.mk (Range.new (-1) 1) (Range.new (-1) 1)).subdivision_ranges.x_a
              y := (Rect.mk (Range.new (-1) 1) (Range.new (-1) 1)).subdivision_ranges.y_a },
       some { x := (Rect.mk (Range.new (-1) 1) (Range.new (-1) 1)).subdivision_ranges.x_a
              y := (Rect.mk (Range.new (-1) 1) (Range.new (-1) 1)).subdivision_ranges.y_b },
       some { x := (Rect.mk (Range.new (-1) 1) (Range.new (-1) 1)).subdivision_ranges.x_a
              y := (Rect.mk (Range.new (-1) 1) (Range.new (-1) 1)).subdivision_ranges.y_b },
       some { x := (Rect.mk (Range.new (-1) 1) (Range.new (-1) 1)).subdivision_ranges.x_b
              y := (Rect.mk (Range.new (-1) 1) (Range.new (-1) 1)).subdivision_ranges.y_b }] ∧
    some { x := (Rect.mk (Range.new (-1) 1) (Range.new (-1) 1)).subdivision_ranges.x_b
           y := (Rect.mk (Range.new (-1) 1) (Range.new (-1) 1)).subdivision_ranges.y_a } ∉
      ((Rect.mk (Range.new (-1) 1) (Range.new (-1) 1)).subdivisions_iter.run
        [true, false, true, true]).1 := by
  refine ⟨by decide, by decide, by decide, rfl, ?_⟩
  simp only [Subdivisions.run, Subdivisions.next, Subdivisions.next_back,
    Rect.subdivisions_iter, SubdivisionRanges.rects_iter,
    Rect.subdivision_ranges, Rect.x_y, Rect.xCoord, Rect.yCoord,
    SubdivisionRanges.subdivision_at_index, Range.middle, Range.new,
    wadd8, wsub8, NUM_SUBDIVISIONS, List.mem_cons, List.not_mem_nil]
  norm_num [Rect.mk.injEq, Range.mk.injEq]

/-- Claim C5: `overlap(other)` returns a rect exactly when both the x ranges
and the y ranges intersect (share a point), and none when either axis is
disjoint; in particular `from_x_y_w_h(0,0,4,4)` and `from_x_y_w_h(10,0,4,4)`
do not overlap. -/
theorem C5_overlap_iff_both_axes_intersect :
    (∀ a b : Rect, (a.overlap b).isSome ↔
      ((∃ v, a.x.contains v ∧ b.x.contains v) ∧
       (∃ v, a.y.contains v ∧ b.y.contains v))) ∧
    (Rect.from_x_y_w_h 0 0 4 4).overlap (Rect.from_x_y_w_h 10 0 4 4) = none := by
  constructor
  · intro a b
    rw [← Range.overlap_isSome_iff, ← Range.overlap_isSome_iff]
    unfold Rect.overlap
    cases hx : a.x.overlap b.x <;> cases hy : a.y.overlap b.y <;> simp
  · have hx : (Rect.from_x_y_w_h 0 0 4 4).x.overlap
        (Rect.from_x_y_w_h 10 0 4 4).x = none := by
      norm_num [Rect.from_x_y_w_h, Rect.from_xy_wh, Range.from_pos_and_len,
        Range.overlap, Range.absolute, Range.new, max_le_iff, le_min_iff]
    unfold Rect.overlap
    rw [hx]
    rfl

/-- Claim C8: for every rect and every scalar `p` with `0 < p` smaller than
half of the rect's smallest dimension, `rect.pad(p).pad(-p) == rect`. -/
theorem C8_pad_invertible (r : Rect) (p : ℚ) (hp : 0 < p)
    (hmin : p < min r.w r.h / 2) : (r.pad p).pad (-p) = r := by
  have hw : p < r.w / 2 := by
    have := min_le_left r.w r.h
    linarith
  have hh : p < r.h / 2 := by
    have := min_le_right r.w r.h
    linarith
  unfold Rect.pad
  rw [Range.pad_pad_neg r.x p hp hw, Range.pad_pad_neg r.y p hp hh]

/-- Witness for C8 at the rect `from_x_y_w_h(0,0,4,4)` and `p = 1`. -/
theorem C8_pad_invertible_witness :
    (0:ℚ) < 1 ∧
    (1:ℚ) < min (Rect.from_x_y_w_h 0 0 4 4).w (Rect.from_x_y_w_h 0 0 4 4).h / 2 ∧
    ((Rect.from_x_y_w_h 0 0 4 4).pad 1).pad (-1) = Rect.from_x_y_w_h 0 0 4 4 := by
  have h1 : (0:ℚ) < 1 := by norm_num
  have h2 : (1:ℚ) <
      min (Rect.from_x_y_w_h 0 0 4 4).w (Rect.from_x_y_w_h 0 0 4 4).h / 2 := by
    norm_num [Rect.from_x_y_w_h, Rect.from_xy_wh, Range.from_pos_and_len,
      Rect.w, Rect.h, Range.len, Range.new, abs_of_nonneg]
  exact ⟨h1, h2, C8_pad_invertible (Rect.from_x_y_w_h 0 0 4 4) 1 h1 h2⟩

/-- Claim C10: rect equality is structural on the stored ranges, not
geometric: the same geometry stored with the y range inverted gives equal
`absolute()` forms and equal left/right/bottom/top, yet unequal rects. -/
theorem C10_equality_structural_not_geometric :
    (Rect.mk (Range.new 0 2) (Range.new 0 2)).absolute =
      (Rect.mk (Range.new 0 2) (Range.new 2 0)).absolute ∧
    (Rect.mk (Range.new 0 2) (Range.new 0 2)).left =
      (Rect.mk (Range.new 0 2) (Range.new 2 0)).left ∧
    (Rect.mk (Range.new 0 2) (Range.new 0 2)).right =
      (Rect.mk (Range.new 0 2) (Range.new 2 0)).right ∧
    (Rect.mk (Range.new 0 2) (Range.new 0 2)).bottom =
      (Rect.mk (Range.new 0 2) (Range.new 2 0)).bottom ∧
    (Rect.mk (Range.new 0 2) (Range.new 0 2)).top =
      (Rect.mk (Range.new 0 2) (Range.new 2 0)).top ∧
    Rect.mk (Range.new 0 2) (Range.new 0 2) ≠
      Rect.mk (Range.new 0 2) (Range.new 2 0) := by
  decide

end Nannou
